import Mathlib

/-!
Verification of the oscilloscope-simulator core (src/main.js).

Shallow embedding of the instrument state, the tutorial state machine, the
probe connection state machine, the control dispatcher `handleControl`, and
the screen-drawing decision logic `drawScreen` of the XR oscilloscope
trainer.  JS numbers that hold exact small values are modelled as `ℚ`/`Int`;
continuous signal mathematics (`Math.sin` etc.) is modelled over `ℝ`.
The JS `%` operator (remainder truncated toward zero, sign of the dividend)
is modelled by `Int.tmod`.
-/

namespace Oscillo

/-- `TIMEBASE_VALUES` (src/main.js line 15), ms/div. -/
def TIMEBASE_VALUES : List ℚ := [0.1, 0.2, 0.5, 1, 2, 5, 10, 20]

/-- `VDIV_VALUES` (src/main.js line 16), V/div. -/
def VDIV_VALUES : List ℚ := [0.1, 0.2, 0.5, 1, 2, 5]

/-- `TRIGGER_VALUES` (src/main.js line 17), div offset. -/
def TRIGGER_VALUES : List ℚ := [-3, -2, -1, 0, 1, 2, 3]

/-- The mutable record `oscState` (src/main.js lines 19–30).  `waveform` is
`Option String` because the JS assignment `oscState.waveform = extra.waveform`
can store `undefined` when the extra record carries no waveform. -/
structure OscState where
  power : Bool
  probeConnected : Bool
  waveform : Option String
  frequency : ℚ
  amplitude : ℚ
  timebaseIdx : Int
  vdivIdx : Int
  triggerIdx : Int
  isRunning : Bool
  currentStep : Nat
deriving Repr, DecidableEq

/-- One tutorial step of the `STEPS` table (src/main.js lines 38–47). -/
structure Step where
  id : Nat
  title : String
  desc : String
  highlight : String
deriving Repr, DecidableEq

/-- The `STEPS` table (src/main.js lines 38–47); descriptions elided, the
dispatch-relevant field is `highlight`. -/
def STEPS : List Step :=
  [ ⟨0, "Step 1 – Power On", "Press the POWER button to turn the oscilloscope on.", "power"⟩,
    ⟨1, "Step 2 – Connect Probe", "Press the CH1 BNC port to plug a probe in.", "ch1"⟩,
    ⟨2, "Step 3 – Select Signal", "Use the WAVE buttons to choose the input signal.", "wave"⟩,
    ⟨3, "Step 4 – Set Timebase", "Click the TIMEBASE knob to cycle ms/div values.", "timebase"⟩,
    ⟨4, "Step 5 – Set V/DIV", "Click the V/DIV knob to scale the voltage axis.", "vdiv"⟩,
    ⟨5, "Step 6 – Set Trigger", "Click the TRIGGER knob to move the trigger level.", "trigger"⟩,
    ⟨6, "Step 7 – Run / Stop", "Press RUN/STOP to freeze the waveform.", "runstop"⟩,
    ⟨7, "Complete!", "You have completed the oscilloscope training.", ""⟩ ]

/-- A captured screen frame: the rendering inputs that determine the pixels
drawn by the live branch of `drawScreen` (rasterization itself is out of
scope).  Corresponds to the `frozenImageData` capture (src/main.js line 345). -/
structure Frame where
  waveform : Option String
  timebase : ℚ
  vdiv : ℚ
  trigger : ℚ
  frequency : ℚ
  amplitude : ℚ
  phase : ℝ

/-- Whole simulation state: `oscState`, the module-level `probeGrabbed`
(src/main.js line 33) and `frozenImageData` (line 241). -/
structure SimState where
  osc : OscState
  probeGrabbed : Bool
  frozen : Option Frame

/-- Initial state (src/main.js lines 19–33, 241). -/
def initState : SimState :=
  { osc :=
      { power := false
        probeConnected := false
        waveform := some "sine"
        frequency := 1000
        amplitude := 3
        timebaseIdx := 3
        vdivIdx := 3
        triggerIdx := 3
        isRunning := true
        currentStep := 0 }
    probeGrabbed := false
    frozen := none }

/-- `extra` record passed to `handleControl` (the clicked interactive
descriptor); `dir` is `extra.dir`, `waveform` is `extra.waveform`, both
possibly absent. -/
structure Extra where
  dir : Option Int
  waveform : Option String
deriving Repr, DecidableEq

/-- Feedback events: one constructor per `showToast` call site of the
dispatcher and probe helpers. -/
inductive Feedback where
  /-- Toast "Power ON" -/
  | powerOn
  /-- Toast "Power OFF" -/
  | powerOff
  /-- Toast "Probe grabbed – move to the CH1 port ▶" -/
  | probeGrabbedMsg
  /-- Toast "Probe released" -/
  | probeReleased
  /-- Toast "✔ Probe connected – CH1" -/
  | probeConnectedMsg
  /-- Toast "Probe disconnected" -/
  | probeDisconnected
  /-- Toast "Grab the probe first, then insert into CH1" -/
  | grabProbeFirst
  /-- Toast naming the new waveform kind -/
  | waveformSet (w : Option String)
  /-- Toast with the new timebase value in ms/div -/
  | timebaseSet (v : ℚ)
  /-- Toast with the new V/DIV value in V -/
  | vdivSet (v : ℚ)
  /-- Toast with the new trigger value in div -/
  | triggerSet (v : ℚ)
  /-- Toast "Running..." -/
  | running
  /-- Toast "STOPPED – waveform frozen" -/
  | stopped
  /-- Toast "AUTO – settings reset to defaults" -/
  | autoReset
deriving Repr, DecidableEq

/-- The JS `%` operator on integers: remainder truncated toward zero. -/
def jsMod (a n : Int) : Int := Int.tmod a n

/-- The rotary-index update `(idx + dir + len) % len` shared by the
`timebase`, `vdiv` and `trigger` cases of `handleControl`
(src/main.js lines 962, 970, 978). -/
def advIdx (len dir i : Int) : Int := jsMod (i + dir + len) len

/-- JS array read `table[idx]` for the value tables, used only for toast
text and frame capture (out-of-range reads yield `undefined` in JS; modelled
as `0`, never reached from in-range indices). -/
def qLookup (l : List ℚ) (i : Int) : ℚ :=
  if 0 ≤ i then l.getD i.toNat 0 else 0

/-- `advanceStep(ctrlType)` (src/main.js lines 872–880): reads
`STEPS[currentStep]` (falsy when out of range), and increments iff
`cur.highlight === ctrlType || currentStep === 7` and
`currentStep < STEPS.length - 1`. -/
def advanceStep (ctrlType : String) (currentStep : Nat) : Nat :=
  match STEPS.get? currentStep with
  | none => currentStep
  | some cur =>
      if cur.highlight = ctrlType ∨ currentStep = 7 then
        if currentStep < STEPS.length - 1 then currentStep + 1 else currentStep
      else currentStep

/-- `snapProbeToCH1()` (src/main.js lines 840–855): clears `probeGrabbed`,
sets `probeConnected`, toasts, advances the tutorial with `"ch1"`. -/
def snapProbeToCH1 (s : SimState) : SimState × List Feedback :=
  ({ s with
      probeGrabbed := false
      osc := { s.osc with
                probeConnected := true
                currentStep := advanceStep "ch1" s.osc.currentStep } },
   [.probeConnectedMsg])

/-- `unplugProbe()` (src/main.js lines 857–867): clears both
`probeConnected` and `probeGrabbed`, toasts. -/
def unplugProbe (s : SimState) : SimState × List Feedback :=
  ({ s with
      probeGrabbed := false
      osc := { s.osc with probeConnected := false } },
   [.probeDisconnected])

/-- `handleControl(ctrlType, extra)` (src/main.js lines 896–1006): the single
control dispatcher.  Returns the successor state and the toasts emitted.
Purely visual effects (button textures, knob rotation, cursors) are not part
of the state. -/
def handleControl (ctrlType : String) (extra : Extra) (s : SimState) :
    SimState × List Feedback :=
  if ctrlType = "power" then
    let p := !s.osc.power
    ({ s with osc := { s.osc with
        power := p
        currentStep := advanceStep "power" s.osc.currentStep } },
     [if p then .powerOn else .powerOff])
  else if ctrlType = "probe_body" then
    if s.osc.probeConnected then unplugProbe s
    else
      let g := !s.probeGrabbed
      ({ s with probeGrabbed := g },
       [if g then .probeGrabbedMsg else .probeReleased])
  else if ctrlType = "ch1" then
    if s.osc.probeConnected then unplugProbe s
    else if s.probeGrabbed then snapProbeToCH1 s
    else (s, [.grabProbeFirst])
  else if ctrlType = "wave" then
    ({ s with osc := { s.osc with
        waveform := extra.waveform
        currentStep := advanceStep "wave" s.osc.currentStep } },
     [.waveformSet extra.waveform])
  else if ctrlType = "timebase" then
    let dir := extra.dir.getD 1
    let idx := advIdx (TIMEBASE_VALUES.length : Int) dir s.osc.timebaseIdx
    ({ s with osc := { s.osc with
        timebaseIdx := idx
        currentStep := advanceStep "timebase" s.osc.currentStep } },
     [.timebaseSet (qLookup TIMEBASE_VALUES idx)])
  else if ctrlType = "vdiv" then
    let dir := extra.dir.getD 1
    let idx := advIdx (VDIV_VALUES.length : Int) dir s.osc.vdivIdx
    ({ s with osc := { s.osc with
        vdivIdx := idx
        currentStep := advanceStep "vdiv" s.osc.currentStep } },
     [.vdivSet (qLookup VDIV_VALUES idx)])
  else if ctrlType = "trigger" then
    let dir := extra.dir.getD 1
    let idx := advIdx (TRIGGER_VALUES.length : Int) dir s.osc.triggerIdx
    ({ s with osc := { s.osc with
        triggerIdx := idx
        currentStep := advanceStep "trigger" s.osc.currentStep } },
     [.triggerSet (qLookup TRIGGER_VALUES idx)])
  else if ctrlType = "runstop" then
    let r := !s.osc.isRunning
    ({ s with
        osc := { s.osc with
          isRunning := r
          currentStep := advanceStep "runstop" s.osc.currentStep }
        frozen := if r then none else s.frozen },
     [if r then .running else .stopped])
  else if ctrlType = "auto" then
    ({ s with
        osc := { s.osc with
          timebaseIdx := 3
          vdivIdx := 3
          triggerIdx := 3
          isRunning := true }
        frozen := none },
     [.autoReset])
  else (s, [])

/-- State part of a dispatched control. -/
def ctrlStep (ctrlType : String) (extra : Extra) (s : SimState) : SimState :=
  (handleControl ctrlType extra s).1

/-- Run a finite sequence of control-dispatch calls. -/
def runCtrls (s : SimState) (calls : List (String × Extra)) : SimState :=
  calls.foldl (fun t c => ctrlStep c.1 c.2 t) s

/-- Probe-affecting observable events: a dispatched control activation, the
animation-loop auto-snap (src/main.js lines 1188–1190, guarded by
`probeGrabbed && !oscState.probeConnected`; the proximity test decides
whether it fires), and the empty-click probe drop (lines 1227–1235). -/
inductive Event where
  | control (k : String) (e : Extra)
  | autoSnap
  | emptyClickDrop
deriving Repr

/-- Apply one observable event to the simulation state. -/
def applyEvent (s : SimState) : Event → SimState
  | .control k e => ctrlStep k e s
  | .autoSnap =>
      if s.probeGrabbed ∧ s.osc.probeConnected = false then (snapProbeToCH1 s).1
      else s
  | .emptyClickDrop =>
      if s.probeGrabbed then { s with probeGrabbed := false } else s

/-- Run a finite sequence of observable events. -/
def runEvents (s : SimState) (evs : List Event) : SimState :=
  evs.foldl applyEvent s

/-- What the screen shows after one `drawScreen` call (src/main.js
lines 243–347): the four mutually exclusive display modes. -/
inductive Display where
  /-- "-- POWER OFF --" placeholder (lines 251–261). -/
  | powerOff
  /-- Flat zero line, "CH1: No probe connected" (lines 263–274). -/
  | noProbe
  /-- `putImageData(frozenImageData)` + STOP badge (lines 277–285). -/
  | frozenView
  /-- Live waveform render of the given frame (lines 287–346). -/
  | live (f : Frame)

/-- The frame the live branch of `drawScreen` renders and captures: current
table values, waveform kind, signal-source parameters and phase
(src/main.js lines 289–297, 318, 345). -/
def mkFrame (s : SimState) (phase : ℝ) : Frame :=
  { waveform := s.osc.waveform
    timebase := qLookup TIMEBASE_VALUES s.osc.timebaseIdx
    vdiv := qLookup VDIV_VALUES s.osc.vdivIdx
    trigger := qLookup TRIGGER_VALUES s.osc.triggerIdx
    frequency := s.osc.frequency
    amplitude := s.osc.amplitude
    phase := phase }

/-- `drawScreen(phase)` (src/main.js lines 243–347): decision structure and
frozen-frame update.  Branches in source order: `!power`, `!probeConnected`,
`!isRunning && frozenImageData`, else live render which stores the freshly
drawn frame into `frozenImageData`. -/
def drawScreen (s : SimState) (phase : ℝ) : Display × Option Frame :=
  if s.osc.power = false then (.powerOff, s.frozen)
  else if s.osc.probeConnected = false then (.noProbe, s.frozen)
  else if s.osc.isRunning = false ∧ s.frozen.isSome then (.frozenView, s.frozen)
  else (.live (mkFrame s phase), some (mkFrame s phase))

/-- `periodsShown` (src/main.js lines 291–293):
`totalTimeMs = timebase * 10`, `periodMs = 1000 / frequency`,
`periodsShown = totalTimeMs / periodMs`. -/
noncomputable def periodsShown (timebase frequency : ℝ) : ℝ :=
  let totalTimeMs := timebase * 10
  let periodMs := 1000 / frequency
  totalTimeMs / periodMs

/-- Sample angle at normalized horizontal position `u = px / W`
(src/main.js line 306): `t = (px / W) * Math.PI * 2 * periodsShown + phase`. -/
noncomputable def sampleAngle (u phase timebase frequency : ℝ) : ℝ :=
  u * Real.pi * 2 * periodsShown timebase frequency + phase

/-- Waveform shape (src/main.js lines 308–310): `sin` for `"sine"`,
`sign(sin)` for `"square"`, else `(2/π) * asin(sin t)` (the `else` branch
catches `"triangle"` and any other stored value, as in the source). -/
noncomputable def waveNorm (waveform : Option String) (t : ℝ) : ℝ :=
  if waveform = some "sine" then Real.sin t
  else if waveform = some "square" then Real.sign (Real.sin t)
  else (2 / Real.pi) * Real.arcsin (Real.sin t)

/-- Normalized live sample of a frame at horizontal position `u ∈ [0,1]`,
composing the angle and shape computations of the live render loop
(src/main.js lines 305–311). -/
noncomputable def frameSample (f : Frame) (u : ℝ) : ℝ :=
  waveNorm f.waveform (sampleAngle u f.phase (f.timebase : ℝ) (f.frequency : ℝ))

/-- Modelled from the spec wording (§4.1) for comparison with the source:
angle `= u * 2π * periodsShown + phase` with
`periodsShown = (timebaseMsPerDiv * 10) / (1000 / frequencyHz)`. -/
noncomputable def specSampleAngle (u phase timebase frequency : ℝ) : ℝ :=
  u * (2 * Real.pi) * ((timebase * 10) / (1000 / frequency)) + phase

/-- Setting only the `power` flag of the instrument state. -/
def setPower (s : SimState) (b : Bool) : SimState :=
  { s with osc := { s.osc with power := b } }

/-- The probe exclusion invariant: `grabbed && connected` is never true. -/
def ProbeInv (s : SimState) : Prop :=
  s.probeGrabbed = true → s.osc.probeConnected = false

/-- A reachable example state: powered on, probe connected, stopped via
RUN/STOP before any live frame was captured (`frozenImageData === null`). -/
def stoppedNoFrozenState : SimState :=
  { osc :=
      { power := true
        probeConnected := true
        waveform := some "sine"
        frequency := 1000
        amplitude := 3
        timebaseIdx := 3
        vdivIdx := 3
        triggerIdx := 3
        isRunning := false
        currentStep := 6 }
    probeGrabbed := false
    frozen := none }

lemma sampleAngle_eq_spec (u phase tb fr : ℝ) :
    sampleAngle u phase tb fr = specSampleAngle u phase tb fr := by
  unfold sampleAngle specSampleAngle periodsShown
  ring

lemma advanceStep_ge (k : String) (n : Nat) : n ≤ advanceStep k n := by
  unfold advanceStep
  cases STEPS.get? n with
  | none => exact Nat.le_refl n
  | some st =>
      dsimp only
      split_ifs <;> omega

lemma advanceStep_le_succ (k : String) (n : Nat) : advanceStep k n ≤ n + 1 := by
  unfold advanceStep
  cases STEPS.get? n with
  | none => exact Nat.le_succ n
  | some st =>
      dsimp only
      split_ifs <;> omega

lemma advanceStep_le7 (k : String) (n : Nat) (h : n ≤ 7) : advanceStep k n ≤ 7 := by
  unfold advanceStep
  cases STEPS.get? n with
  | none => exact h
  | some st =>
      have hl : STEPS.length - 1 = 7 := rfl
      dsimp only
      rw [hl]
      split_ifs <;> omega

lemma handleControl_power (e : Extra) (s : SimState) :
    handleControl "power" e s =
      ({ s with osc := { s.osc with
          power := !s.osc.power
          currentStep := advanceStep "power" s.osc.currentStep } },
       [if !s.osc.power then .powerOn else .powerOff]) := rfl

lemma handleControl_probe_body (e : Extra) (s : SimState) :
    handleControl "probe_body" e s =
      if s.osc.probeConnected then unplugProbe s
      else ({ s with probeGrabbed := !s.probeGrabbed },
            [if !s.probeGrabbed then .probeGrabbedMsg else .probeReleased]) := rfl

lemma handleControl_ch1 (e : Extra) (s : SimState) :
    handleControl "ch1" e s =
      if s.osc.probeConnected then unplugProbe s
      else if s.probeGrabbed then snapProbeToCH1 s
      else (s, [.grabProbeFirst]) := rfl

lemma handleControl_wave (e : Extra) (s : SimState) :
    handleControl "wave" e s =
      ({ s with osc := { s.osc with
          waveform := e.waveform
          currentStep := advanceStep "wave" s.osc.currentStep } },
       [.waveformSet e.waveform]) := rfl

lemma handleControl_timebase (e : Extra) (s : SimState) :
    handleControl "timebase" e s =
      ({ s with osc := { s.osc with
          timebaseIdx := advIdx 8 (e.dir.getD 1) s.osc.timebaseIdx
          currentStep := advanceStep "timebase" s.osc.currentStep } },
       [.timebaseSet (qLookup TIMEBASE_VALUES (advIdx 8 (e.dir.getD 1) s.osc.timebaseIdx))]) := rfl

lemma handleControl_vdiv (e : Extra) (s : SimState) :
    handleControl "vdiv" e s =
      ({ s with osc := { s.osc with
          vdivIdx := advIdx 6 (e.dir.getD 1) s.osc.vdivIdx
          currentStep := advanceStep "vdiv" s.osc.currentStep } },
       [.vdivSet (qLookup VDIV_VALUES (advIdx 6 (e.dir.getD 1) s.osc.vdivIdx))]) := rfl

lemma handleControl_trigger (e : Extra) (s : SimState) :
    handleControl "trigger" e s =
      ({ s with osc := { s.osc with
          triggerIdx := advIdx 7 (e.dir.getD 1) s.osc.triggerIdx
          currentStep := advanceStep "trigger" s.osc.currentStep } },
       [.triggerSet (qLookup TRIGGER_VALUES (advIdx 7 (e.dir.getD 1) s.osc.triggerIdx))]) := rfl

lemma handleControl_runstop (e : Extra) (s : SimState) :
    handleControl "runstop" e s =
      ({ s with
          osc := { s.osc with
            isRunning := !s.osc.isRunning
            currentStep := advanceStep "runstop" s.osc.currentStep }
          frozen := if !s.osc.isRunning then none else s.frozen },
       [if !s.osc.isRunning then .running else .stopped]) := rfl

lemma handleControl_auto (e : Extra) (s : SimState) :
    handleControl "auto" e s =
      ({ s with
          osc := { s.osc with
            timebaseIdx := 3
            vdivIdx := 3
            triggerIdx := 3
            isRunning := true }
          frozen := none },
       [.autoReset]) := rfl

lemma handleControl_other (k : String) (e : Extra) (s : SimState)
    (h1 : ¬ k = "power") (h2 : ¬ k = "probe_body") (h3 : ¬ k = "ch1")
    (h4 : ¬ k = "wave") (h5 : ¬ k = "timebase") (h6 : ¬ k = "vdiv")
    (h7 : ¬ k = "trigger") (h8 : ¬ k = "runstop") (h9 : ¬ k = "auto") :
    handleControl k e s = (s, []) := by
  unfold handleControl
  rw [if_neg h1, if_neg h2, if_neg h3, if_neg h4, if_neg h5, if_neg h6,
      if_neg h7, if_neg h8, if_neg h9]

lemma ctrlStep_power (e : Extra) (s : SimState) :
    ctrlStep "power" e s =
      { s with osc := { s.osc with
          power := !s.osc.power
          currentStep := advanceStep "power" s.osc.currentStep } } := rfl

lemma ctrlStep_probe_body (e : Extra) (s : SimState) :
    ctrlStep "probe_body" e s =
      if s.osc.probeConnected then (unplugProbe s).1
      else { s with probeGrabbed := !s.probeGrabbed } := by
  unfold ctrlStep
  rw [handleControl_probe_body]
  split_ifs <;> rfl

lemma ctrlStep_ch1 (e : Extra) (s : SimState) :
    ctrlStep "ch1" e s =
      if s.osc.probeConnected then (unplugProbe s).1
      else if s.probeGrabbed then (snapProbeToCH1 s).1
      else s := by
  unfold ctrlStep
  rw [handleControl_ch1]
  split_ifs <;> rfl

lemma ctrlStep_wave (e : Extra) (s : SimState) :
    ctrlStep "wave" e s =
      { s with osc := { s.osc with
          waveform := e.waveform
          currentStep := advanceStep "wave" s.osc.currentStep } } := rfl

lemma ctrlStep_timebase (e : Extra) (s : SimState) :
    ctrlStep "timebase" e s =
      { s with osc := { s.osc with
          timebaseIdx := advIdx 8 (e.dir.getD 1) s.osc.timebaseIdx
          currentStep := advanceStep "timebase" s.osc.currentStep } } := rfl

lemma ctrlStep_vdiv (e : Extra) (s : SimState) :
    ctrlStep "vdiv" e s =
      { s with osc := { s.osc with
          vdivIdx := advIdx 6 (e.dir.getD 1) s.osc.vdivIdx
          currentStep := advanceStep "vdiv" s.osc.currentStep } } := rfl

lemma ctrlStep_trigger (e : Extra) (s : SimState) :
    ctrlStep "trigger" e s =
      { s with osc := { s.osc with
          triggerIdx := advIdx 7 (e.dir.getD 1) s.osc.triggerIdx
          currentStep := advanceStep "trigger" s.osc.currentStep } } := rfl

lemma ctrlStep_runstop (e : Extra) (s : SimState) :
    ctrlStep "runstop" e s =
      { s with
        osc := { s.osc with
          isRunning := !s.osc.isRunning
          currentStep := advanceStep "runstop" s.osc.currentStep }
        frozen := if !s.osc.isRunning then none else s.frozen } := rfl

lemma ctrlStep_auto (e : Extra) (s : SimState) :
    ctrlStep "auto" e s =
      { s with
        osc := { s.osc with
          timebaseIdx := 3
          vdivIdx := 3
          triggerIdx := 3
          isRunning := true }
        frozen := none } := rfl

lemma ctrlStep_other (k : String) (e : Extra) (s : SimState)
    (h1 : ¬ k = "power") (h2 : ¬ k = "probe_body") (h3 : ¬ k = "ch1")
    (h4 : ¬ k = "wave") (h5 : ¬ k = "timebase") (h6 : ¬ k = "vdiv")
    (h7 : ¬ k = "trigger") (h8 : ¬ k = "runstop") (h9 : ¬ k = "auto") :
    ctrlStep k e s = s := by
  unfold ctrlStep
  rw [handleControl_other k e s h1 h2 h3 h4 h5 h6 h7 h8 h9]

lemma applyEvent_control (s : SimState) (k : String) (e : Extra) :
    applyEvent s (.control k e) = ctrlStep k e s := rfl

lemma applyEvent_autoSnap (s : SimState) :
    applyEvent s .autoSnap =
      if s.probeGrabbed ∧ s.osc.probeConnected = false then (snapProbeToCH1 s).1
      else s := rfl

lemma applyEvent_emptyClickDrop (s : SimState) :
    applyEvent s .emptyClickDrop =
      if s.probeGrabbed then { s with probeGrabbed := false } else s := rfl

lemma ctrlStep_currentStep_ge (k : String) (e : Extra) (s : SimState) :
    s.osc.currentStep ≤ (ctrlStep k e s).osc.currentStep := by
  by_cases h1 : k = "power"
  · subst h1; rw [ctrlStep_power]; exact advanceStep_ge _ _
  by_cases h2 : k = "probe_body"
  · subst h2; rw [ctrlStep_probe_body]
    split_ifs <;> exact Nat.le_refl _
  by_cases h3 : k = "ch1"
  · subst h3; rw [ctrlStep_ch1]
    split_ifs
    · exact Nat.le_refl _
    · exact advanceStep_ge _ _
    · exact Nat.le_refl _
  by_cases h4 : k = "wave"
  · subst h4; rw [ctrlStep_wave]; exact advanceStep_ge _ _
  by_cases h5 : k = "timebase"
  · subst h5; rw [ctrlStep_timebase]; exact advanceStep_ge _ _
  by_cases h6 : k = "vdiv"
  · subst h6; rw [ctrlStep_vdiv]; exact advanceStep_ge _ _
  by_cases h7 : k = "trigger"
  · subst h7; rw [ctrlStep_trigger]; exact advanceStep_ge _ _
  by_cases h8 : k = "runstop"
  · subst h8; rw [ctrlStep_runstop]; exact advanceStep_ge _ _
  by_cases h9 : k = "auto"
  · subst h9; rw [ctrlStep_auto]
  rw [ctrlStep_other k e s h1 h2 h3 h4 h5 h6 h7 h8 h9]

lemma ctrlStep_currentStep_le7 (k : String) (e : Extra) (s : SimState)
    (h : s.osc.currentStep ≤ 7) : (ctrlStep k e s).osc.currentStep ≤ 7 := by
  by_cases h1 : k = "power"
  · subst h1; rw [ctrlStep_power]; exact advanceStep_le7 _ _ h
  by_cases h2 : k = "probe_body"
  · subst h2; rw [ctrlStep_probe_body]
    split_ifs <;> exact h
  by_cases h3 : k = "ch1"
  · subst h3; rw [ctrlStep_ch1]
    split_ifs
    · exact h
    · exact advanceStep_le7 _ _ h
    · exact h
  by_cases h4 : k = "wave"
  · subst h4; rw [ctrlStep_wave]; exact advanceStep_le7 _ _ h
  by_cases h5 : k = "timebase"
  · subst h5; rw [ctrlStep_timebase]; exact advanceStep_le7 _ _ h
  by_cases h6 : k = "vdiv"
  · subst h6; rw [ctrlStep_vdiv]; exact advanceStep_le7 _ _ h
  by_cases h7 : k = "trigger"
  · subst h7; rw [ctrlStep_trigger]; exact advanceStep_le7 _ _ h
  by_cases h8 : k = "runstop"
  · subst h8; rw [ctrlStep_runstop]; exact advanceStep_le7 _ _ h
  by_cases h9 : k = "auto"
  · subst h9; rw [ctrlStep_auto]; exact h
  rw [ctrlStep_other k e s h1 h2 h3 h4 h5 h6 h7 h8 h9]
  exact h

lemma runCtrls_append (s : SimState) (l1 l2 : List (String × Extra)) :
    runCtrls s (l1 ++ l2) = runCtrls (runCtrls s l1) l2 := by
  unfold runCtrls
  exact List.foldl_append _ _ _ _

lemma runCtrls_currentStep_ge (l : List (String × Extra)) (s : SimState) :
    s.osc.currentStep ≤ (runCtrls s l).osc.currentStep := by
  induction l generalizing s with
  | nil => exact Nat.le_refl _
  | cons c l ih =>
      exact Nat.le_trans (ctrlStep_currentStep_ge c.1 c.2 s) (ih (ctrlStep c.1 c.2 s))

lemma runCtrls_currentStep_le7 (l : List (String × Extra)) (s : SimState)
    (h : s.osc.currentStep ≤ 7) : (runCtrls s l).osc.currentStep ≤ 7 := by
  induction l generalizing s with
  | nil => exact h
  | cons c l ih =>
      exact ih (ctrlStep c.1 c.2 s) (ctrlStep_currentStep_le7 c.1 c.2 s h)

lemma ctrlStep_probeInv (k : String) (e : Extra) (s : SimState) (h : ProbeInv s) :
    ProbeInv (ctrlStep k e s) := by
  unfold ProbeInv at h ⊢
  by_cases h1 : k = "power"
  · subst h1; rw [ctrlStep_power]; exact h
  by_cases h2 : k = "probe_body"
  · subst h2; rw [ctrlStep_probe_body]
    split_ifs with hc
    · exact fun _ => rfl
    · intro _
      cases hb : s.osc.probeConnected with
      | false => rfl
      | true => exact absurd hb hc
  by_cases h3 : k = "ch1"
  · subst h3; rw [ctrlStep_ch1]
    split_ifs
    · exact fun _ => rfl
    · intro hgr; exact absurd hgr (by simp [snapProbeToCH1])
    · exact h
  by_cases h4 : k = "wave"
  · subst h4; rw [ctrlStep_wave]; exact h
  by_cases h5 : k = "timebase"
  · subst h5; rw [ctrlStep_timebase]; exact h
  by_cases h6 : k = "vdiv"
  · subst h6; rw [ctrlStep_vdiv]; exact h
  by_cases h7 : k = "trigger"
  · subst h7; rw [ctrlStep_trigger]; exact h
  by_cases h8 : k = "runstop"
  · subst h8; rw [ctrlStep_runstop]; exact h
  by_cases h9 : k = "auto"
  · subst h9; rw [ctrlStep_auto]; exact h
  rw [ctrlStep_other k e s h1 h2 h3 h4 h5 h6 h7 h8 h9]
  exact h

lemma applyEvent_probeInv (s : SimState) (ev : Event) (h : ProbeInv s) :
    ProbeInv (applyEvent s ev) := by
  cases ev with
  | control k e => exact ctrlStep_probeInv k e s h
  | autoSnap =>
      unfold ProbeInv at h ⊢
      rw [applyEvent_autoSnap]
      split_ifs
      · intro hgr; exact absurd hgr (by simp [snapProbeToCH1])
      · exact h
  | emptyClickDrop =>
      unfold ProbeInv at h ⊢
      rw [applyEvent_emptyClickDrop]
      split_ifs
      · intro hgr; exact absurd hgr (by simp)
      · exact h

lemma runEvents_probeInv (evs : List Event) (s : SimState) (h : ProbeInv s) :
    ProbeInv (runEvents s evs) := by
  induction evs generalizing s with
  | nil => exact h
  | cons ev evs ih => exact ih (applyEvent s ev) (applyEvent_probeInv s ev h)

lemma iterate_timebase_proj (e : Extra) (n : Nat) (s : SimState) :
    ((fun t => ctrlStep "timebase" e t)^[n] s).osc.timebaseIdx =
      (fun i => advIdx 8 (e.dir.getD 1) i)^[n] s.osc.timebaseIdx := by
  induction n generalizing s with
  | zero => rfl
  | succ n ih =>
      rw [Function.iterate_succ_apply, Function.iterate_succ_apply, ih]
      rfl

lemma iterate_vdiv_proj (e : Extra) (n : Nat) (s : SimState) :
    ((fun t => ctrlStep "vdiv" e t)^[n] s).osc.vdivIdx =
      (fun i => advIdx 6 (e.dir.getD 1) i)^[n] s.osc.vdivIdx := by
  induction n generalizing s with
  | zero => rfl
  | succ n ih =>
      rw [Function.iterate_succ_apply, Function.iterate_succ_apply, ih]
      rfl

lemma iterate_trigger_proj (e : Extra) (n : Nat) (s : SimState) :
    ((fun t => ctrlStep "trigger" e t)^[n] s).osc.triggerIdx =
      (fun i => advIdx 7 (e.dir.getD 1) i)^[n] s.osc.triggerIdx := by
  induction n generalizing s with
  | zero => rfl
  | succ n ih =>
      rw [Function.iterate_succ_apply, Function.iterate_succ_apply, ih]
      rfl

lemma advIdx8_cycle (i : Int) (h1 : 0 ≤ i) (h2 : i < 8) :
    (fun j => advIdx 8 1 j)^[8] i = i := by
  interval_cases i <;> decide

lemma advIdx6_cycle (i : Int) (h1 : 0 ≤ i) (h2 : i < 6) :
    (fun j => advIdx 6 1 j)^[6] i = i := by
  interval_cases i <;> decide

lemma advIdx7_cycle (i : Int) (h1 : 0 ≤ i) (h2 : i < 7) :
    (fun j => advIdx 7 1 j)^[7] i = i := by
  interval_cases i <;> decide

/-- C1: at every observable instant (initially and after any sequence of
control activations, probe grabs/drops, snaps, and unplugs) the probe state
never has `grabbed` and `connected` true at the same time. -/
theorem probe_never_grabbed_and_connected (evs : List Event) :
    ((runEvents initState evs).probeGrabbed &&
      (runEvents initState evs).osc.probeConnected) = false := by
  have h : ProbeInv (runEvents initState evs) :=
    runEvents_probeInv evs initState (fun _ => rfl)
  cases hg : (runEvents initState evs).probeGrabbed with
  | false => rfl
  | true =>
      rw [h hg]
      rfl

/-- C2: for every step index `s ≤ 7` and control kind `k`, a tutorial
advance with `k` increments the step index by exactly one iff the expected
control kind (`highlight`) of step `s` equals `k` and `s < 7`; otherwise the
index is unchanged, and a single advance never decreases the index nor
increases it by more than one. -/
theorem advanceStep_increment_iff (s : Nat) (k : String) (hs : s ≤ 7) :
    (advanceStep k s = s + 1 ↔
      ((STEPS.getD s ⟨0, "", "", ""⟩).highlight = k ∧ s < 7)) ∧
    (advanceStep k s = s ∨ advanceStep k s = s + 1) := by
  constructor
  · have hget : STEPS.get? s = some (STEPS.getD s ⟨0, "", "", ""⟩) := by
      interval_cases s <;> rfl
    unfold advanceStep
    rw [hget]
    dsimp only
    have hl : STEPS.length - 1 = 7 := rfl
    rw [hl]
    split_ifs with hcond hlt
    · constructor
      · intro _
        rcases hcond with h | h
        · exact ⟨h, hlt⟩
        · omega
      · intro _
        rfl
    · constructor
      · intro he
        omega
      · rintro ⟨_, hlt2⟩
        exact absurd hlt2 hlt
    · constructor
      · intro he
        omega
      · rintro ⟨hk, _⟩
        exact absurd (Or.inl hk) hcond
  · unfold advanceStep
    cases STEPS.get? s with
    | none => exact Or.inl rfl
    | some st =>
        dsimp only
        split_ifs
        · exact Or.inr rfl
        · exact Or.inl rfl
        · exact Or.inl rfl

/-- Witness for C2 at step 1 with control kind "ch1". -/
theorem advanceStep_increment_iff_witness :
    (advanceStep "ch1" 1 = 2 ↔
      ((STEPS.getD 1 ⟨0, "", "", ""⟩).highlight = "ch1" ∧ 1 < 7)) ∧
    (advanceStep "ch1" 1 = 1 ∨ advanceStep "ch1" 1 = 2) :=
  advanceStep_increment_iff 1 "ch1" (by decide)

/-- C3 (counterexample): with the default start index 3 and direction −12,
the timebase case stores `(3 − 12 + 8) % 8 = −1` (JS truncated remainder),
which is out of range `[0, 8)` and differs from the mathematical
`(3 − 12) mod 8 = 7` the claim asserts. -/
theorem rotary_wrap_counterexample :
    initState.osc.timebaseIdx = 3 ∧
    (ctrlStep "timebase" ⟨some (-12), none⟩ initState).osc.timebaseIdx = -1 ∧
    ¬ (0 ≤ (ctrlStep "timebase" ⟨some (-12), none⟩ initState).osc.timebaseIdx ∧
        (ctrlStep "timebase" ⟨some (-12), none⟩ initState).osc.timebaseIdx <
          (TIMEBASE_VALUES.length : Int)) ∧
    (ctrlStep "timebase" ⟨some (-12), none⟩ initState).osc.timebaseIdx ≠
      (initState.osc.timebaseIdx + (-12)) % (TIMEBASE_VALUES.length : Int) := by
  refine ⟨rfl, rfl, ?_, ?_⟩
  · decide
  · decide

/-- C3 (amended): for every starting index in `[0, len)` and every integer
direction with `direction ≥ −len` (which covers the default `+1`), the
Timebase/Vdiv/Trigger control sets the index to `(old + direction) mod len`,
which lies in `[0, len)`. -/
theorem rotary_wrap_in_range_amended (s : SimState) (e : Extra) :
    (-8 ≤ e.dir.getD 1 → 0 ≤ s.osc.timebaseIdx → s.osc.timebaseIdx < 8 →
      ((ctrlStep "timebase" e s).osc.timebaseIdx =
          (s.osc.timebaseIdx + e.dir.getD 1) % 8 ∧
        0 ≤ (ctrlStep "timebase" e s).osc.timebaseIdx ∧
        (ctrlStep "timebase" e s).osc.timebaseIdx < 8)) ∧
    (-6 ≤ e.dir.getD 1 → 0 ≤ s.osc.vdivIdx → s.osc.vdivIdx < 6 →
      ((ctrlStep "vdiv" e s).osc.vdivIdx =
          (s.osc.vdivIdx + e.dir.getD 1) % 6 ∧
        0 ≤ (ctrlStep "vdiv" e s).osc.vdivIdx ∧
        (ctrlStep "vdiv" e s).osc.vdivIdx < 6)) ∧
    (-7 ≤ e.dir.getD 1 → 0 ≤ s.osc.triggerIdx → s.osc.triggerIdx < 7 →
      ((ctrlStep "trigger" e s).osc.triggerIdx =
          (s.osc.triggerIdx + e.dir.getD 1) % 7 ∧
        0 ≤ (ctrlStep "trigger" e s).osc.triggerIdx ∧
        (ctrlStep "trigger" e s).osc.triggerIdx < 7)) := by
  refine ⟨?_, ?_, ?_⟩
  · intro hd h0 hlen
    have hkey : (ctrlStep "timebase" e s).osc.timebaseIdx =
        advIdx 8 (e.dir.getD 1) s.osc.timebaseIdx := rfl
    rw [hkey]
    unfold advIdx jsMod
    rw [Int.tmod_eq_emod (by omega) (by norm_num)]
    refine ⟨by omega, by omega, by omega⟩
  · intro hd h0 hlen
    have hkey : (ctrlStep "vdiv" e s).osc.vdivIdx =
        advIdx 6 (e.dir.getD 1) s.osc.vdivIdx := rfl
    rw [hkey]
    unfold advIdx jsMod
    rw [Int.tmod_eq_emod (by omega) (by norm_num)]
    refine ⟨by omega, by omega, by omega⟩
  · intro hd h0 hlen
    have hkey : (ctrlStep "trigger" e s).osc.triggerIdx =
        advIdx 7 (e.dir.getD 1) s.osc.triggerIdx := rfl
    rw [hkey]
    unfold advIdx jsMod
    rw [Int.tmod_eq_emod (by omega) (by norm_num)]
    refine ⟨by omega, by omega, by omega⟩

/-- Witness for the amended C3 at the initial state with default direction. -/
theorem rotary_wrap_in_range_amended_witness :
    (ctrlStep "timebase" ⟨none, none⟩ initState).osc.timebaseIdx =
        (initState.osc.timebaseIdx + (1 : Int)) % 8 ∧
    0 ≤ (ctrlStep "timebase" ⟨none, none⟩ initState).osc.timebaseIdx ∧
    (ctrlStep "timebase" ⟨none, none⟩ initState).osc.timebaseIdx < 8 :=
  (rotary_wrap_in_range_amended initState ⟨none, none⟩).1
    (by decide) (by decide) (by decide)

/-- C4: over every finite sequence of control-dispatch calls (any kinds, any
parameters) the tutorial step index starts at 0, is non-decreasing along the
sequence, and never exceeds 7. -/
theorem tutorial_step_monotone_bounded (pre suf : List (String × Extra)) :
    initState.osc.currentStep = 0 ∧
    (runCtrls initState pre).osc.currentStep ≤
      (runCtrls initState (pre ++ suf)).osc.currentStep ∧
    (runCtrls initState (pre ++ suf)).osc.currentStep ≤ 7 := by
  refine ⟨rfl, ?_, ?_⟩
  · rw [runCtrls_append]
    exact runCtrls_currentStep_ge suf _
  · exact runCtrls_currentStep_le7 _ _ (by decide)

/-- C5: the Auto control, from any state, resets the three rotary indices to
their default index 3, forces `isRunning = true`, clears the frozen frame
buffer, leaves the tutorial step unchanged, and emits only the AUTO toast. -/
theorem auto_resets_defaults (s : SimState) (e : Extra) :
    (ctrlStep "auto" e s).osc.timebaseIdx = 3 ∧
    (ctrlStep "auto" e s).osc.vdivIdx = 3 ∧
    (ctrlStep "auto" e s).osc.triggerIdx = 3 ∧
    (ctrlStep "auto" e s).osc.isRunning = true ∧
    (ctrlStep "auto" e s).frozen = none ∧
    (ctrlStep "auto" e s).osc.currentStep = s.osc.currentStep ∧
    (handleControl "auto" e s).2 = [Feedback.autoReset] :=
  ⟨rfl, rfl, rfl, rfl, rfl, rfl, rfl⟩

/-- C6: the live waveform sample is computed from
`angle = u * 2π * periodsShown + phase` with
`periodsShown = (timebase * 10) / (1000 / frequency)`, and the shape applied
to the angle is `sin` for Sine, `sign ∘ sin` for Square, and
`(2/π) * asin (sin angle)` for Triangle. -/
theorem live_sample_formula (u phase tb fr t : ℝ) (f : Frame) :
    sampleAngle u phase tb fr = specSampleAngle u phase tb fr ∧
    waveNorm (some "sine") t = Real.sin t ∧
    waveNorm (some "square") t = Real.sign (Real.sin t) ∧
    waveNorm (some "triangle") t = (2 / Real.pi) * Real.arcsin (Real.sin t) ∧
    frameSample f u =
      waveNorm f.waveform
        (specSampleAngle u f.phase (f.timebase : ℝ) (f.frequency : ℝ)) := by
  refine ⟨sampleAngle_eq_spec u phase tb fr, ?_, ?_, ?_, ?_⟩
  · simp [waveNorm]
  · unfold waveNorm
    rw [if_neg (by decide), if_pos rfl]
  · unfold waveNorm
    rw [if_neg (by decide), if_neg (by decide)]
  · unfold frameSample
    rw [sampleAngle_eq_spec]

/-- C7: activating the CH1 port when the probe is neither grabbed nor
connected changes no state and emits exactly the "grab the probe first"
feedback message. -/
theorem ch1_without_grab_is_noop (s : SimState) (e : Extra)
    (hg : s.probeGrabbed = false) (hc : s.osc.probeConnected = false) :
    handleControl "ch1" e s = (s, [Feedback.grabProbeFirst]) := by
  rw [handleControl_ch1]
  rw [if_neg (by rw [hc]; exact Bool.false_ne_true)]
  rw [if_neg (by rw [hg]; exact Bool.false_ne_true)]

/-- Witness for C7 at the initial state. -/
theorem ch1_without_grab_is_noop_witness :
    handleControl "ch1" ⟨none, none⟩ initState =
      (initState, [Feedback.grabProbeFirst]) :=
  ch1_without_grab_is_noop initState ⟨none, none⟩ rfl rfl

/-- C8: the rotary controls (Timebase, Vdiv, Trigger) behave identically
whatever the power flag: dispatching them on a state with power forced to
any value `b` equals forcing power to `b` on the normal result, and the
index mutation is performed unconditionally. -/
theorem rotary_controls_ignore_power (s : SimState) (e : Extra) (b : Bool) :
    handleControl "timebase" e (setPower s b) =
      (setPower (ctrlStep "timebase" e s) b, (handleControl "timebase" e s).2) ∧
    handleControl "vdiv" e (setPower s b) =
      (setPower (ctrlStep "vdiv" e s) b, (handleControl "vdiv" e s).2) ∧
    handleControl "trigger" e (setPower s b) =
      (setPower (ctrlStep "trigger" e s) b, (handleControl "trigger" e s).2) ∧
    (ctrlStep "timebase" e s).osc.timebaseIdx =
      advIdx 8 (e.dir.getD 1) s.osc.timebaseIdx ∧
    (ctrlStep "vdiv" e s).osc.vdivIdx =
      advIdx 6 (e.dir.getD 1) s.osc.vdivIdx ∧
    (ctrlStep "trigger" e s).osc.triggerIdx =
      advIdx 7 (e.dir.getD 1) s.osc.triggerIdx :=
  ⟨rfl, rfl, rfl, rfl, rfl, rfl⟩

/-- C9: from any in-range starting indices, applying the Timebase control 8
times, the Vdiv control 6 times, and the Trigger control 7 times (each with
the default direction `+1`) returns the respective index to its original
value. -/
theorem rotary_full_cycle_identity (s : SimState)
    (h1 : 0 ≤ s.osc.timebaseIdx) (h2 : s.osc.timebaseIdx < 8)
    (h3 : 0 ≤ s.osc.vdivIdx) (h4 : s.osc.vdivIdx < 6)
    (h5 : 0 ≤ s.osc.triggerIdx) (h6 : s.osc.triggerIdx < 7) :
    ((fun t => ctrlStep "timebase" ⟨none, none⟩ t)^[8] s).osc.timebaseIdx =
        s.osc.timebaseIdx ∧
    ((fun t => ctrlStep "vdiv" ⟨none, none⟩ t)^[6] s).osc.vdivIdx =
        s.osc.vdivIdx ∧
    ((fun t => ctrlStep "trigger" ⟨none, none⟩ t)^[7] s).osc.triggerIdx =
        s.osc.triggerIdx := by
  refine ⟨?_, ?_, ?_⟩
  · rw [iterate_timebase_proj]
    exact advIdx8_cycle _ h1 h2
  · rw [iterate_vdiv_proj]
    exact advIdx6_cycle _ h3 h4
  · rw [iterate_trigger_proj]
    exact advIdx7_cycle _ h5 h6

/-- Witness for C9 at the initial state (all indices 3). -/
theorem rotary_full_cycle_identity_witness :
    ((fun t => ctrlStep "timebase" ⟨none, none⟩ t)^[8] initState).osc.timebaseIdx =
        initState.osc.timebaseIdx ∧
    ((fun t => ctrlStep "vdiv" ⟨none, none⟩ t)^[6] initState).osc.vdivIdx =
        initState.osc.vdivIdx ∧
    ((fun t => ctrlStep "trigger" ⟨none, none⟩ t)^[7] initState).osc.triggerIdx =
        initState.osc.triggerIdx :=
  rotary_full_cycle_identity initState (by decide) (by decide) (by decide)
    (by decide) (by decide) (by decide)

/-- C10: drawing the screen with power on, probe connected, not running, and
no frozen frame stored skips the STOP branch: a fresh live frame is computed
from the current settings and phase, rendered, and stored as the new frozen
frame. -/
theorem drawScreen_live_capture (s : SimState) (phase : ℝ)
    (hp : s.osc.power = true) (hc : s.osc.probeConnected = true)
    (hr : s.osc.isRunning = false) (hf : s.frozen = none) :
    drawScreen s phase = (Display.live (mkFrame s phase), some (mkFrame s phase)) := by
  unfold drawScreen
  rw [hp, hc, hr, hf]
  simp

/-- Witness for C10 at a concrete stopped state with empty freeze buffer. -/
theorem drawScreen_live_capture_witness :
    drawScreen stoppedNoFrozenState 0 =
      (Display.live (mkFrame stoppedNoFrozenState 0),
        some (mkFrame stoppedNoFrozenState 0)) :=
  drawScreen_live_capture stoppedNoFrozenState 0 rfl rfl rfl rfl

end Oscillo
